import Mathlib

/-!
Verification of the checkout-lifecycle core of the fb CLI (Flow Boards client).

The definitions below are a shallow embedding of the Go sources:
  * api/client.go           — paginated collection fetcher and dual-shape parsing
  * internal/service        — bin-name resolver (ResolveBinFilter, IsBinID) and
                              the ticket service wrappers
  * internal/state/types.go — CheckoutState / BinContext persistence
  * internal/commands/checkout.go — the checkout state machine
  * the status command (ExecuteStatus)

Remote HTTP interactions are modelled by oracles: a script of responses for the
paginated listing endpoints, and result-valued fields of an environment record
for the one-shot calls (config load, REST-prefix discovery, user lookup, ticket
search).  Local persistence is modelled as an explicit state record threaded
through the commands; disk writes are modelled as always succeeding (the spec
explicitly scopes its atomicity statements to remote-step failures and flags
low-level disk-write failure as a separate durability gap).  Character
classification (unicode.IsLetter/IsDigit, strings.ToLower, TrimSpace) is
modelled at ASCII granularity by the corresponding Lean primitives.
-/

deriving instance DecidableEq for Except

/-- A Flow Boards bin (api `_id` + `name`), from models/models.go. -/
structure Bin where
  id : String
  name : String
deriving DecidableEq

/-- A Flow Boards board (`_id`, `name`, referenced bin ids), from models/models.go. -/
structure Board where
  id : String
  name : String
  bins : List String
deriving DecidableEq

/-- A Flow Boards ticket, from models/models.go.  The optional timestamps are
omitted: no embedded operation reads them. -/
structure Ticket where
  id : String
  name : String
  description : String
  binID : String
  binName : String
  assignedIDs : List String
deriving DecidableEq

instance : Inhabited Ticket := ⟨⟨"", "", "", "", "", []⟩⟩

/-- A Flow Boards user (`_id`, `email`, `name`), from models/models.go. -/
structure User where
  id : String
  email : String
  name : String
deriving DecidableEq

/-- The local configuration record (config/config.go). -/
structure Config where
  authKey : String
  orgID : String
  userEmail : String
deriving DecidableEq

/-!
Paginated collection fetcher (api/client.go).

A response body for a listing endpoint, as seen by the two json.Unmarshal
attempts in parseBinsPage/parseBoardsPage:
  * obj: the body is a JSON object; it unmarshals into the paginated struct
    whose Results slice is nil exactly when the results field is absent or
    null (in Go an object body never unmarshals into a bare slice, so when
    Results is nil the array fallback fails);
  * arr: the body is a bare JSON array of items (the object unmarshal of an
    array fails in Go, the slice unmarshal succeeds);
  * bad: the body unmarshals as neither shape.
-/
inductive RespBody (α : Type) where
  | obj (results : Option (List α)) (pageToken : String)
  | arr (items : List α)
  | bad
deriving DecidableEq

/-- Shallow embedding of parseBinsPage / parseBoardsPage (api/client.go
lines 375-407): try the paginated shape first and use it when Results is
non-nil, otherwise fall back to the bare-array shape. -/
def parsePage (kind : String) : RespBody α → Except String (List α × String)
  | .obj (some results) tok => .ok (results, tok)
  | .obj none _ => .error ("failed to parse " ++ kind ++ " response")
  | .arr items => .ok (items, "")
  | .bad => .error ("failed to parse " ++ kind ++ " response")

/-- parseBinsPage from api/client.go. -/
def parseBinsPage (body : RespBody Bin) : Except String (List Bin × String) :=
  parsePage "bins" body

/-- parseBoardsPage from api/client.go. -/
def parseBoardsPage (body : RespBody Board) : Except String (List Board × String) :=
  parsePage "boards" body

/-- The pagination loop of GetBins / GetBoards (api/client.go lines 193-223
and 243-273).  The remote is a script: the list of doRequest outcomes the
server produces for the successive requests of this fetch.  The second
component counts the HTTP requests issued.  Each loop iteration issues one
request; a script that runs out models an unreachable server. -/
def getPagesAux (kind : String) :
    List (Except String (RespBody α)) → List α → Except String (List α) × Nat
  | [], _ => (.error ("failed to get " ++ kind ++ ": no response"), 1)
  | resp :: rest, acc =>
    match resp with
    | .error e => (.error ("failed to get " ++ kind ++ ": " ++ e), 1)
    | .ok body =>
      match parsePage kind body with
      | .error e => (.error e, 1)
      | .ok (items, tok) =>
        if tok = "" then (.ok (acc ++ items), 1)
        else
          let r := getPagesAux kind rest (acc ++ items)
          (r.1, r.2 + 1)

/-- GetBins from api/client.go: fetch every page of bins, concatenating the
pages in response order; also reports the number of requests issued. -/
def GetBins (script : List (Except String (RespBody Bin))) :
    Except String (List Bin) × Nat :=
  getPagesAux "bins" script []

/-- GetBoards from api/client.go. -/
def GetBoards (script : List (Except String (RespBody Board))) :
    Except String (List Board) × Nat :=
  getPagesAux "boards" script []

/-- A server script made of well-linked paginated pages: every page carries a
non-empty token except the last, whose token is empty. -/
def linkedPages : List (List α × String) → Prop
  | [] => False
  | [(_, tok)] => tok = ""
  | (_, tok) :: page :: rest => tok ≠ "" ∧ linkedPages (page :: rest)

/-- The script of responses corresponding to a list of paginated pages. -/
def pagesScript (pages : List (List α × String)) : List (Except String (RespBody α)) :=
  pages.map (fun page => .ok (.obj (some page.1) page.2))

/-!
Name resolver (internal/service, ResolveBinFilter / IsBinID) and the
client-level lookup (api/client.go, LookupBinIDByName).
-/

/-- IsBinID from the service package: a non-empty string every character of
which is a letter or a digit is classified as an id. -/
def IsBinID (s : String) : Bool :=
  if s = "" then false
  else s.toList.all (fun c => c.isAlpha || c.isDigit)

/-- Model of strings.ToLower at ASCII granularity, written on the character
list so that it evaluates by kernel reduction. -/
def toLowerStr (s : String) : String := ⟨s.toList.map Char.toLower⟩

/-- Model of strings.TrimSpace, written on the character list: whitespace is
dropped from both ends. -/
def trimStr (s : String) : String :=
  ⟨((s.toList.dropWhile Char.isWhitespace).reverse.dropWhile Char.isWhitespace).reverse⟩

/-- LookupBinIDByName from api/client.go lines 226-240: fetch all bins and
scan for the first case-insensitive name match.  The second component is the
number of HTTP requests issued (all by the inner GetBins). -/
def LookupBinIDByName (script : List (Except String (RespBody Bin)))
    (binName : String) : Except String String × Nat :=
  match GetBins script with
  | (.error e, n) => (.error e, n)
  | (.ok bins, n) =>
    match bins.find? (fun b => toLowerStr b.name == toLowerStr binName) with
    | some b => (.ok b.id, n)
    | none => (.error ("bin not found: " ++ binName), n)

/-- ResolveBinFilter from the service package: pass an alphanumeric candidate
through unchanged (no remote call), otherwise resolve it by name.  The second
component is the number of HTTP requests issued. -/
def ResolveBinFilter (script : List (Except String (RespBody Bin)))
    (binFilter : String) : Except String String × Nat :=
  if IsBinID binFilter then (.ok binFilter, 0)
  else
    match LookupBinIDByName script binFilter with
    | (.ok id, n) => (.ok id, n)
    | (.error e, n) =>
      (.error ("failed to find bin \x27" ++ binFilter ++ "\x27: " ++ e), n)

/-!
Local persisted state (internal/state).
-/

/-- CheckoutState from internal/state/types.go. -/
structure CheckoutState where
  ticketID : String
  ticketName : String
  binID : String
  binName : String
  checkedOutAt : String
deriving DecidableEq

/-- BinContext from internal/state/types.go. -/
structure BinContext where
  binID : String
  binName : String
deriving DecidableEq

/-- The possible conditions of the checkout file on disk, as distinguished by
LoadCheckout (internal/state): missing, unreadable, readable but not JSON, or
holding a valid record. -/
inductive FileState where
  | absent
  | unreadable
  | corrupt
  | valid (cs : CheckoutState)
deriving DecidableEq

/-- LoadCheckout from internal/state (lines 53-69 of the state package):
reading the checkout file yields the record exactly when the file exists, is
readable and parses; each failure mode has its own error. -/
def LoadCheckout : FileState → Except String CheckoutState
  | .absent => .error "no checkout file found"
  | .unreadable => .error "failed to read checkout file"
  | .corrupt => .error "failed to parse checkout file"
  | .valid cs => .ok cs

/-- The whole local persisted state: the checkout file and the bin-context
file.  LoadBinContext treats a missing and an unparseable bin-context file
identically (any read error means no context), so the bin-context file is
modelled by an Option. -/
structure LocalState where
  checkoutFile : FileState
  binContext : Option BinContext
deriving DecidableEq

/-- SaveCheckout from internal/state: the checkout file is wholly rewritten
with the given record (disk writes modelled as succeeding). -/
def SaveCheckout (st : LocalState) (cs : CheckoutState) : LocalState :=
  { st with checkoutFile := .valid cs }

/-- SaveBinContext from internal/state: the bin-context file is wholly
rewritten with the given bin id and name. -/
def SaveBinContext (st : LocalState) (binID binName : String) : LocalState :=
  { st with binContext := some ⟨binID, binName⟩ }

/-- ClearCheckout from internal/state: remove the checkout file; removing a
missing file is not an error. -/
def ClearCheckout (st : LocalState) : Except String Unit × LocalState :=
  (.ok (), { st with checkoutFile := .absent })

/-!
Environment of one command invocation: the outcome of every external
interaction the checkout commands can perform, fixed up front.
-/

/-- The external world of one invocation.  searchTickets is the client-level
result of SearchTicketsWithFilters for a given (userID, binID, boardID)
triple; binsScript drives the paginated bins fetch used by name resolution;
stdin is the stream of input lines; now is the RFC3339 clock reading. -/
structure Env where
  loadConfig : Except String Config
  discover : Except String Unit
  userLookup : Except String User
  binsScript : List (Except String (RespBody Bin))
  searchTickets : String → String → String → Except String (List Ticket)
  stdin : List String
  now : String

/-- LoadConfig (config/config.go), as an oracle outcome. -/
def LoadConfig (env : Env) : Except String Config :=
  env.loadConfig

/-- NewTicketService (internal/service): client construction plus REST-prefix
discovery, wrapping a discovery failure. -/
def NewTicketService (env : Env) : Except String Unit :=
  match env.discover with
  | .error e => .error ("failed to discover API endpoint: " ++ e)
  | .ok _ => .ok ()

/-- TicketService.GetCurrentUser (internal/service): user lookup with the
service-level error wrapping. -/
def GetCurrentUser (env : Env) : Except String User :=
  match env.userLookup with
  | .error e => .error ("failed to get user information: " ++ e)
  | .ok u => .ok u

/-- TicketService.GetUserTicketsFiltered (internal/service): ticket search for
one user with a bin filter and an empty board filter. -/
def GetUserTicketsFiltered (env : Env) (userID binID : String) :
    Except String (List Ticket) :=
  match env.searchTickets userID binID "" with
  | .error e => .error ("failed to search tickets: " ++ e)
  | .ok ts => .ok ts

/-- TicketService.GetUserTickets (internal/service): ticket search for one
user with no filters (SearchTickets delegates with empty bin and board). -/
def GetUserTickets (env : Env) (userID : String) : Except String (List Ticket) :=
  match env.searchTickets userID "" "" with
  | .error e => .error ("failed to search tickets: " ++ e)
  | .ok ts => .ok ts

/-- ResolveBinFilter as called from the checkout command (the request count is
not observed there). -/
def ResolveBinFilterResult (env : Env) (binName : String) : Except String String :=
  (ResolveBinFilter env.binsScript binName).1

/-!
The checkout commands (internal/commands/checkout.go) and the status command.
-/

/-- One bufio ReadString call on the stdin stream: the next line, or an empty
read at end of input (the command ignores the read error). -/
def readLine : List String → String
  | [] => ""
  | line :: _ => line

/-- Digits-to-number accumulator for the Sscanf model. -/
def digitsToNat (ds : List Char) : Nat :=
  ds.foldl (fun acc c => acc * 10 + (c.toNat - 48)) 0

/-- The leading digit run of a character list, if non-empty. -/
def parseLeadingDigits (cs : List Char) : Option Nat :=
  let ds := cs.takeWhile Char.isDigit
  if ds.isEmpty then none else some (digitsToNat ds)

/-- Model of fmt.Sscanf(input, percent-d): an optional sign followed by at
least one digit at the start of the (already trimmed) input; characters after
the digit run are ignored, as Sscanf stops at the first verb. -/
def sscanfInt (s : String) : Option Int :=
  match s.toList with
  | '-' :: cs => (parseLeadingDigits cs).map (fun n => -(n : Int))
  | '+' :: cs => (parseLeadingDigits cs).map (fun n => (n : Int))
  | cs => (parseLeadingDigits cs).map (fun n => (n : Int))

/-- The conflict error of ExecuteBinCheckout (checkout.go line 37). -/
def conflictBinMsg (ticketName : String) : String :=
  "ticket already checked out: " ++ ticketName ++
    "\nUse \x27fb clear\x27 or \x27fb checkout --force\x27"

/-- The conflict error of ExecuteDirectCheckout (checkout.go line 124). -/
def conflictDirectMsg (ticketName : String) : String :=
  "ticket already checked out: " ++ ticketName ++ "\nUse \x27fb clear\x27 first"

/-- The error of ExecuteCheckoutWithLastBin when no bin context exists
(checkout.go line 183). -/
def noBinContextMsg : String :=
  "no bin context found. Use \x27fb checkout --bin \"Bin Name\"\x27 first"

/-- Lines 41-117 of ExecuteBinCheckout: everything after the conflict check.
Load config, build the service, look the user up, resolve the bin, fetch the
bin's tickets; an empty result reports and leaves the state as is; otherwise
read one selection line, validate it, and persist the chosen ticket followed
by the bin context. -/
def binCheckoutBody (env : Env) (st : LocalState) (binName : String) :
    Except String Unit × LocalState :=
  match LoadConfig env with
  | .error e => (.error e, st)
  | .ok _ =>
    match NewTicketService env with
    | .error e => (.error e, st)
    | .ok _ =>
      match GetCurrentUser env with
      | .error e => (.error e, st)
      | .ok user =>
        match ResolveBinFilterResult env binName with
        | .error e => (.error e, st)
        | .ok binID =>
          match GetUserTicketsFiltered env user.id binID with
          | .error e => (.error e, st)
          | .ok tickets =>
            if tickets.length = 0 then (.ok (), st)
            else
              let input := trimStr (readLine env.stdin)
              if input = "" then (.error "cancelled", st)
              else
                match sscanfInt input with
                | none => (.error "invalid selection", st)
                | some selection =>
                  if selection < 1 ∨ selection > (tickets.length : Int) then
                    (.error "invalid selection", st)
                  else
                    let t := tickets.getD (selection.toNat - 1) default
                    let checkout : CheckoutState :=
                      ⟨t.id, t.name, t.binID, t.binName, env.now⟩
                    let st1 := SaveCheckout st checkout
                    let st2 := SaveBinContext st1 binID binName
                    (.ok (), st2)

/-- ExecuteBinCheckout (checkout.go lines 33-118): unless force is set, a
loadable checkout record is a conflict naming the checked-out ticket; then
the remote workflow runs. -/
def ExecuteBinCheckout (env : Env) (st : LocalState) (binName : String)
    (force : Bool) : Except String Unit × LocalState :=
  if force = false then
    match LoadCheckout st.checkoutFile with
    | .ok existing => (.error (conflictBinMsg existing.ticketName), st)
    | .error _ => binCheckoutBody env st binName
  else binCheckoutBody env st binName

/-- Lines 127-176 of ExecuteDirectCheckout: everything after the conflict
check.  Load config, build the service, look the user up, fetch the user's
tickets, and persist the first one whose id matches; a missing id is the
combined not-found / not-assigned error. -/
def directCheckoutBody (env : Env) (st : LocalState) (ticketID : String) :
    Except String Unit × LocalState :=
  match LoadConfig env with
  | .error e => (.error e, st)
  | .ok _ =>
    match NewTicketService env with
    | .error e => (.error e, st)
    | .ok _ =>
      match GetCurrentUser env with
      | .error e => (.error e, st)
      | .ok user =>
        match GetUserTickets env user.id with
        | .error e => (.error e, st)
        | .ok tickets =>
          match tickets.find? (fun t => t.id == ticketID) with
          | none =>
            (.error ("ticket " ++ ticketID ++ " not found or not assigned to you"), st)
          | some t =>
            let checkout : CheckoutState :=
              ⟨t.id, t.name, t.binID, t.binName, env.now⟩
            (.ok (), SaveCheckout st checkout)

/-- ExecuteDirectCheckout (checkout.go lines 121-177): any loadable checkout
record is a conflict (no force parameter); then the remote workflow runs. -/
def ExecuteDirectCheckout (env : Env) (st : LocalState) (ticketID : String) :
    Except String Unit × LocalState :=
  match LoadCheckout st.checkoutFile with
  | .ok existing => (.error (conflictDirectMsg existing.ticketName), st)
  | .error _ => directCheckoutBody env st ticketID

/-- ExecuteCheckoutWithLastBin (checkout.go lines 180-187): load the bin
context (any load failure is the no-bin-context error) and run the bin
checkout on the cached bin name with force unset. -/
def ExecuteCheckoutWithLastBin (env : Env) (st : LocalState) :
    Except String Unit × LocalState :=
  match st.binContext with
  | none => (.error noBinContextMsg, st)
  | some bc => ExecuteBinCheckout env st bc.binName false

/-- ExecuteCheckout (checkout.go lines 17-30): a leading argument routes to
the direct-id path (dropping the force flag), a bin flag to the bin path, and
otherwise the last-bin path. -/
def ExecuteCheckout (env : Env) (st : LocalState) (args : List String)
    (binFlag : String) (forceFlag : Bool) : Except String Unit × LocalState :=
  match args with
  | a :: _ => ExecuteDirectCheckout env st a
  | [] =>
    if binFlag ≠ "" then ExecuteBinCheckout env st binFlag forceFlag
    else ExecuteCheckoutWithLastBin env st

/-- What the status command reports (detailed formatting of the record is the
formatter collaborator, outside the embedded core). -/
inductive StatusOutput where
  | nothingCheckedOut
  | checkedOut (cs : CheckoutState)
deriving DecidableEq

/-- ExecuteStatus (status command): a checkout-file load failure reports that
nothing is checked out and still returns success; a loaded record is
displayed.  The command never returns an error. -/
def ExecuteStatus (file : FileState) : Except String StatusOutput :=
  match LoadCheckout file with
  | .error _ => .ok .nothingCheckedOut
  | .ok cs => .ok (.checkedOut cs)

/-- ExecuteClear (checkout.go lines 190-196): delegate to ClearCheckout. -/
def ExecuteClear (st : LocalState) : Except String Unit × LocalState :=
  ClearCheckout st

/-- Modelled from the spec: the remote ticket-search endpoint (the server side
of SearchTickets, not part of this repository) returns the tickets whose
assignee list contains the queried user — §4.4: SearchTickets composes user
filters, and the data model gives each ticket its list of assignee ids. -/
def remoteSearch (allTickets : List Ticket) (userID : String) : List Ticket :=
  allTickets.filter (fun t => t.assignedIDs.contains userID)

/-!
Concrete data used by the witness and counterexample theorems.
-/

/-- Witness bins for the pagination and resolution claims. -/
def wBin1 : Bin := ⟨"id1", "To Do"⟩

/-- Second witness bin; its name carries a space so it cannot be mistaken for
an id. -/
def wBin2 : Bin := ⟨"id2", "In Progress"⟩

/-- Third witness bin. -/
def wBin3 : Bin := ⟨"id3", "Done"⟩

/-- Witness ticket assigned to user u1 and sitting in the In Progress bin. -/
def wTicket : Ticket := ⟨"T1", "Ticket One", "desc", "id2", "In Progress", ["u1"]⟩

/-- Witness ticket owned by somebody else. -/
def wOtherTicket : Ticket := ⟨"T9", "Foreign", "desc", "id1", "To Do", ["u2"]⟩

/-- A checkout record standing for an earlier checkout. -/
def wOldCheckout : CheckoutState := ⟨"X1", "Old Ticket", "id1", "To Do", "2025-12-31T00:00:00Z"⟩

/-- A baseline environment where every remote step succeeds: one bins page,
a remote holding only wTicket, a stdin selecting entry 1. -/
def wEnv : Env :=
  { loadConfig := .ok ⟨"key", "org", "me@example.com"⟩
  , discover := .ok ()
  , userLookup := .ok ⟨"u1", "me@example.com", "Me"⟩
  , binsScript := [.ok (.obj (some [wBin1, wBin2]) "")]
  , searchTickets := fun uid _ _ => .ok (remoteSearch [wTicket, wOtherTicket] uid)
  , stdin := ["1"]
  , now := "2026-01-01T00:00:00Z" }

/-- The empty local state: no checkout file, no bin context. -/
def wEmptyState : LocalState := ⟨.absent, none⟩

/-- A local state holding the old checkout record and no bin context. -/
def wHeldState : LocalState := ⟨.valid wOldCheckout, none⟩

/-- Whether loading the checkout file fails (the state-machine Empty side of
the existence-of-file-is-state pattern). -/
def loadFails (f : FileState) : Bool :=
  match LoadCheckout f with
  | .ok _ => false
  | .error _ => true

/-- Environment whose remote holds no tickets at all: a direct checkout
target is absent from the system. -/
def wEnvTicketAbsent : Env :=
  { wEnv with searchTickets := fun uid _ _ => .ok (remoteSearch [] uid) }

/-- Environment whose remote holds wOtherTicket, assigned to user u2 only:
the direct checkout target exists but is not assigned to the caller u1. -/
def wEnvTicketUnassigned : Env :=
  { wEnv with searchTickets := fun uid _ _ => .ok (remoteSearch [wOtherTicket] uid) }

/-- Environment whose first stdin line is non-numeric while the second is a
valid selection. -/
def wEnvBadInput : Env := { wEnv with stdin := ["abc", "1"] }

/-- Environment whose first stdin line is an out-of-range selection while the
second is a valid one. -/
def wEnvRangeInput : Env := { wEnv with stdin := ["5", "1"] }

/-!
Shared lemmas.
-/

/-- The pagination loop over a well-linked script of paginated pages returns
the accumulator followed by the concatenated pages and issues one request per
page, ignoring any further script entries. -/
theorem getPagesAux_linked {α : Type} (kind : String)
    (pages : List (List α × String)) (extra : List (Except String (RespBody α)))
    (acc : List α) (h : linkedPages pages) :
    getPagesAux kind (pagesScript pages ++ extra) acc =
      (.ok (acc ++ (pages.map Prod.fst).flatten), pages.length) := by
  induction pages generalizing acc with
  | nil => cases h
  | cons page rest ih =>
    obtain ⟨p, tok⟩ := page
    cases rest with
    | nil =>
      have htok : tok = "" := h
      subst htok
      simp [pagesScript, getPagesAux, parsePage]
    | cons page2 rest2 =>
      obtain ⟨hne, hrest⟩ := h
      have ihr := ih (acc ++ p) hrest
      simp only [pagesScript, List.map_cons, List.cons_append, getPagesAux, parsePage,
        if_neg hne] at ihr ⊢
      rw [ihr]
      simp [List.append_assoc]

/-- C4: For every sequence of N pages linked by page-tokens, the fetchers
GetBins and GetBoards return exactly the concatenation of all pages' items in
response order, issue exactly N HTTP requests (request count equals page
count), and stop at the first response whose parsed page-token is absent
(further script entries are never requested). -/
theorem C4_pagination_completeness :
    (∀ (pages : List (List Bin × String)) extra, linkedPages pages →
        GetBins (pagesScript pages ++ extra) =
          (.ok (pages.map Prod.fst).flatten, pages.length)) ∧
    (∀ (pages : List (List Board × String)) extra, linkedPages pages →
        GetBoards (pagesScript pages ++ extra) =
          (.ok (pages.map Prod.fst).flatten, pages.length)) :=
  ⟨fun pages extra h => getPagesAux_linked "bins" pages extra [] h,
   fun pages extra h => getPagesAux_linked "boards" pages extra [] h⟩

/-- Witness for C4: three bins pages linked by tokens yield the five bins in
order with exactly three requests, even with a stray fourth response queued. -/
theorem C4_pagination_completeness_witness :
    GetBins (pagesScript [([wBin1], "tok1"), ([wBin2, wBin3], "tok2"), ([], "")] ++
        [.ok (.arr [wBin1])]) =
      (.ok [wBin1, wBin2, wBin3], 3) := by
  have h := C4_pagination_completeness.1
    [([wBin1], "tok1"), ([wBin2, wBin3], "tok2"), ([], "")]
    [.ok (.arr [wBin1])] (by simp [linkedPages])
  simpa using h

/-- C7: When a listing response is a bare JSON array (it does not parse as the
paginated shape), the fetcher returns exactly those items as a single final
page and issues no additional requests. -/
theorem C7_legacy_shape_fallback :
    (∀ (items : List Bin) extra, GetBins (.ok (.arr items) :: extra) = (.ok items, 1)) ∧
    (∀ (items : List Board) extra, GetBoards (.ok (.arr items) :: extra) = (.ok items, 1)) := by
  constructor <;> intro items extra <;> simp [GetBins, GetBoards, getPagesAux, parsePage]

/-- The post-conflict bin-checkout body either leaves the local state exactly
as it was or succeeds: every error return happens before any save. -/
theorem binCheckoutBody_state (env : Env) (st : LocalState) (bn : String) :
    (binCheckoutBody env st bn).2 = st ∨ (binCheckoutBody env st bn).1 = .ok () := by
  unfold binCheckoutBody
  repeat' split
  all_goals try simp
  all_goals try split
  all_goals try simp
  all_goals try split
  all_goals try simp
  all_goals try split
  all_goals try simp

/-- The post-conflict direct-checkout body either leaves the local state
exactly as it was or succeeds. -/
theorem directCheckoutBody_state (env : Env) (st : LocalState) (tid : String) :
    (directCheckoutBody env st tid).2 = st ∨ (directCheckoutBody env st tid).1 = .ok () := by
  unfold directCheckoutBody
  repeat' split
  all_goals simp

/-- ExecuteBinCheckout either leaves the local state exactly as it was or
succeeds. -/
theorem executeBinCheckout_state (env : Env) (st : LocalState) (bn : String)
    (force : Bool) :
    (ExecuteBinCheckout env st bn force).2 = st ∨
      (ExecuteBinCheckout env st bn force).1 = .ok () := by
  unfold ExecuteBinCheckout
  by_cases hf : force = false
  · simp only [if_pos hf]
    cases LoadCheckout st.checkoutFile with
    | ok existing => exact Or.inl rfl
    | error e => exact binCheckoutBody_state env st bn
  · simp only [if_neg hf]
    exact binCheckoutBody_state env st bn

/-- ExecuteDirectCheckout either leaves the local state exactly as it was or
succeeds. -/
theorem executeDirectCheckout_state (env : Env) (st : LocalState) (tid : String) :
    (ExecuteDirectCheckout env st tid).2 = st ∨
      (ExecuteDirectCheckout env st tid).1 = .ok () := by
  unfold ExecuteDirectCheckout
  cases LoadCheckout st.checkoutFile with
  | ok existing => exact Or.inl rfl
  | error e => exact directCheckoutBody_state env st tid

/-- ExecuteCheckoutWithLastBin either leaves the local state exactly as it
was or succeeds. -/
theorem executeCheckoutWithLastBin_state (env : Env) (st : LocalState) :
    (ExecuteCheckoutWithLastBin env st).2 = st ∨
      (ExecuteCheckoutWithLastBin env st).1 = .ok () := by
  unfold ExecuteCheckoutWithLastBin
  cases st.binContext with
  | none => exact Or.inl rfl
  | some bc => exact executeBinCheckout_state env st bc.binName false

/-- C2: Every checkout operation that returns an error — through any of the
three paths or the top-level router — leaves the local persisted state (both
the CheckoutState record and the BinContext record) exactly as it was: the
records are only written after all remote steps have succeeded. -/
theorem C2_error_means_no_state_write (env : Env) (st : LocalState) (e : String) :
    (∀ binName force, (ExecuteBinCheckout env st binName force).1 = .error e →
        (ExecuteBinCheckout env st binName force).2 = st) ∧
    (∀ tid, (ExecuteDirectCheckout env st tid).1 = .error e →
        (ExecuteDirectCheckout env st tid).2 = st) ∧
    ((ExecuteCheckoutWithLastBin env st).1 = .error e →
        (ExecuteCheckoutWithLastBin env st).2 = st) ∧
    (∀ args binFlag force, (ExecuteCheckout env st args binFlag force).1 = .error e →
        (ExecuteCheckout env st args binFlag force).2 = st) := by
  have resolve :
      ∀ (p : Except String Unit × LocalState), p.2 = st ∨ p.1 = .ok () →
        p.1 = .error e → p.2 = st := by
    rintro p (h | h) herr
    · exact h
    · rw [h] at herr
      cases herr
  refine ⟨fun bn force => resolve _ (executeBinCheckout_state env st bn force),
          fun tid => resolve _ (executeDirectCheckout_state env st tid),
          resolve _ (executeCheckoutWithLastBin_state env st),
          fun args binFlag force => ?_⟩
  cases args with
  | cons a rest => exact resolve _ (executeDirectCheckout_state env st a)
  | nil =>
    by_cases hb : binFlag ≠ ""
    · simpa [ExecuteCheckout, hb] using
        fun h => resolve _ (executeBinCheckout_state env st binFlag force) h
    · simpa [ExecuteCheckout, hb] using
        fun h => resolve _ (executeCheckoutWithLastBin_state env st) h

/-- Witness for C2: a conflicting bin checkout errors and leaves the held
state untouched. -/
theorem C2_error_means_no_state_write_witness :
    (ExecuteBinCheckout wEnv wHeldState "In Progress" false).2 = wHeldState :=
  (C2_error_means_no_state_write wEnv wHeldState
      (conflictBinMsg wOldCheckout.ticketName)).1 "In Progress" false rfl

/-- A checkout file that fails to load yields some load error. -/
theorem loadFails_error (f : FileState) (hf : loadFails f = true) :
    ∃ e, LoadCheckout f = .error e := by
  cases f with
  | valid cs => simp [loadFails, LoadCheckout] at hf
  | absent => exact ⟨_, rfl⟩
  | unreadable => exact ⟨_, rfl⟩
  | corrupt => exact ⟨_, rfl⟩

/-- The result component of the post-conflict bin-checkout body does not
depend on the incoming local state. -/
theorem binCheckoutBody_fst (env : Env) (st st' : LocalState) (bn : String) :
    (binCheckoutBody env st bn).1 = (binCheckoutBody env st' bn).1 := by
  unfold binCheckoutBody
  repeat' split
  all_goals try simp
  all_goals try split
  all_goals try simp
  all_goals try split
  all_goals try simp
  all_goals try split
  all_goals try simp

/-- The result component of the post-conflict direct-checkout body does not
depend on the incoming local state. -/
theorem directCheckoutBody_fst (env : Env) (st st' : LocalState) (tid : String) :
    (directCheckoutBody env st tid).1 = (directCheckoutBody env st' tid).1 := by
  unfold directCheckoutBody
  repeat' split
  all_goals simp

/-- C1 (amended): every checkout operation invoked while a CheckoutState
record exists with force unset fails and leaves the record unchanged; the
error is the Conflict error naming the checked-out ticket, except for the
repeat-last-bin path without a saved BinContext, which fails with the
no-bin-context error before the conflict check is ever reached. -/
theorem C1_conflict_on_checkout (env : Env) (st : LocalState) (cs : CheckoutState)
    (hst : st.checkoutFile = .valid cs) :
    (∀ binName, ExecuteBinCheckout env st binName false =
        (.error (conflictBinMsg cs.ticketName), st)) ∧
    (∀ tid, ExecuteDirectCheckout env st tid =
        (.error (conflictDirectMsg cs.ticketName), st)) ∧
    (∀ bc, st.binContext = some bc →
        ExecuteCheckoutWithLastBin env st =
          (.error (conflictBinMsg cs.ticketName), st)) ∧
    (st.binContext = none →
        ExecuteCheckoutWithLastBin env st = (.error noBinContextMsg, st)) := by
  refine ⟨?_, ?_, ?_, ?_⟩
  · intro bn
    simp [ExecuteBinCheckout, hst, LoadCheckout]
  · intro tid
    simp [ExecuteDirectCheckout, hst, LoadCheckout]
  · intro bc hbc
    simp [ExecuteCheckoutWithLastBin, hbc, ExecuteBinCheckout, hst, LoadCheckout]
  · intro hbc
    simp [ExecuteCheckoutWithLastBin, hbc]

/-- Witness for C1 (amended): the held state makes a non-forced bin checkout
fail with the Conflict error naming the old ticket, unchanged state. -/
theorem C1_conflict_on_checkout_witness :
    ExecuteBinCheckout wEnv wHeldState "In Progress" false =
      (.error (conflictBinMsg wOldCheckout.ticketName), wHeldState) :=
  (C1_conflict_on_checkout wEnv wHeldState wOldCheckout rfl).1 "In Progress"

/-- Counterexample for C1 as stated: a repeat-last-bin checkout invoked while
a CheckoutState record exists (wHeldState holds wOldCheckout) and force is
false fails with the no-bin-context error, which is not a Conflict error and
does not name the checked-out ticket. -/
theorem C1_counterexample_lastbin :
    ExecuteCheckoutWithLastBin wEnv wHeldState = (.error noBinContextMsg, wHeldState) ∧
    noBinContextMsg ≠ conflictBinMsg wOldCheckout.ticketName ∧
    noBinContextMsg ≠ conflictDirectMsg wOldCheckout.ticketName :=
  ⟨rfl, by decide, by decide⟩

/-- C10: A direct-ID checkout through the checkout router while a
CheckoutState record exists fails with the conflict error even when force is
passed: the force flag is not forwarded to the direct-ID path. -/
theorem C10_force_not_forwarded (env : Env) (st : LocalState) (cs : CheckoutState)
    (tid : String) (rest : List String) (binFlag : String)
    (hst : st.checkoutFile = .valid cs) :
    ExecuteCheckout env st (tid :: rest) binFlag true =
      (.error (conflictDirectMsg cs.ticketName), st) := by
  simp [ExecuteCheckout, ExecuteDirectCheckout, hst, LoadCheckout]

/-- Witness for C10: forcing a direct checkout of T1 while the old ticket is
held still conflicts. -/
theorem C10_force_not_forwarded_witness :
    ExecuteCheckout wEnv wHeldState ["T1"] "" true =
      (.error (conflictDirectMsg wOldCheckout.ticketName), wHeldState) :=
  C10_force_not_forwarded wEnv wHeldState wOldCheckout "T1" [] "" rfl

/-- C9: When the local checkout file is unreadable or unparseable, the
operations treat the state as Empty rather than failing hard: the status
command reports nothing checked out and succeeds, and the checkout commands
behave exactly as they do with no checkout file at all — in particular the
conflict error can only arise from a record that actually loads. -/
theorem C9_corrupt_treated_as_empty (f : FileState) (hf : loadFails f = true) :
    ExecuteStatus f = .ok .nothingCheckedOut ∧
    (∀ env bc binName force,
        (ExecuteBinCheckout env ⟨f, bc⟩ binName force).1 =
          (ExecuteBinCheckout env ⟨.absent, bc⟩ binName force).1) ∧
    (∀ env bc tid,
        (ExecuteDirectCheckout env ⟨f, bc⟩ tid).1 =
          (ExecuteDirectCheckout env ⟨.absent, bc⟩ tid).1) := by
  obtain ⟨e, he⟩ := loadFails_error f hf
  refine ⟨?_, ?_, ?_⟩
  · simp [ExecuteStatus, he]
  · intro env bc bn force
    unfold ExecuteBinCheckout
    by_cases hforce : force = false
    · simp only [if_pos hforce]
      simp only [he]
      exact binCheckoutBody_fst env ⟨f, bc⟩ ⟨.absent, bc⟩ bn
    · simp only [if_neg hforce]
      exact binCheckoutBody_fst env ⟨f, bc⟩ ⟨.absent, bc⟩ bn
  · intro env bc tid
    unfold ExecuteDirectCheckout
    simp only [he]
    exact directCheckoutBody_fst env ⟨f, bc⟩ ⟨.absent, bc⟩ tid

/-- Witness for C9: a corrupt checkout file makes the status command report
nothing checked out, and a bin checkout behaves as with no file. -/
theorem C9_corrupt_treated_as_empty_witness :
    ExecuteStatus .corrupt = .ok .nothingCheckedOut ∧
    (ExecuteBinCheckout wEnv ⟨.corrupt, none⟩ "In Progress" false).1 =
      (ExecuteBinCheckout wEnv ⟨.absent, none⟩ "In Progress" false).1 :=
  ⟨(C9_corrupt_treated_as_empty .corrupt rfl).1,
   (C9_corrupt_treated_as_empty .corrupt rfl).2.1 wEnv none "In Progress" false⟩

/-- C3 (amended): For every direct-ID checkout from the Empty state whose
remote steps succeed, a ticket ID that is not among the tickets the remote
returns for the caller — whether absent from the system or present but
assigned to someone else — yields the single combined error naming the id,
and no checkout file is created. -/
theorem C3_direct_checkout_not_found (env : Env) (st : LocalState) (tid : String)
    (cfg : Config) (user : User) (tickets : List Ticket)
    (hload : loadFails st.checkoutFile = true)
    (hcfg : LoadConfig env = .ok cfg)
    (hsvc : NewTicketService env = .ok ())
    (husr : GetCurrentUser env = .ok user)
    (htks : GetUserTickets env user.id = .ok tickets)
    (habs : tickets.find? (fun t => t.id == tid) = none) :
    ExecuteDirectCheckout env st tid =
      (.error ("ticket " ++ tid ++ " not found or not assigned to you"), st) := by
  obtain ⟨e, he⟩ := loadFails_error st.checkoutFile hload
  unfold ExecuteDirectCheckout
  simp only [he]
  unfold directCheckoutBody
  simp only [hcfg, hsvc, husr, htks, habs]

/-- Witness for C3 (amended): checking out T9, which exists remotely but is
assigned to user u2 while the caller is u1, errors with the combined message
and writes nothing. -/
theorem C3_direct_checkout_not_found_witness :
    ExecuteDirectCheckout wEnvTicketUnassigned wEmptyState "T9" =
      (.error ("ticket " ++ "T9" ++ " not found or not assigned to you"), wEmptyState) :=
  C3_direct_checkout_not_found wEnvTicketUnassigned wEmptyState "T9"
    ⟨"key", "org", "me@example.com"⟩ ⟨"u1", "me@example.com", "Me"⟩ []
    rfl rfl rfl rfl rfl rfl

/-- Counterexample for C3 as stated: with the remote modelled as returning
the caller's assigned tickets, the ticket id T9 produces the very same error
string whether no such ticket exists anywhere (wEnvTicketAbsent) or the
ticket exists but belongs to user u2 (wEnvTicketUnassigned) — the two
failure modes are not distinguishable; in both cases the state is unchanged. -/
theorem C3_counterexample_same_message :
    ExecuteDirectCheckout wEnvTicketAbsent wEmptyState "T9" =
      (.error "ticket T9 not found or not assigned to you", wEmptyState) ∧
    ExecuteDirectCheckout wEnvTicketUnassigned wEmptyState "T9" =
      (.error "ticket T9 not found or not assigned to you", wEmptyState) :=
  ⟨rfl, rfl⟩

/-- When force is set or the checkout file does not load, ExecuteBinCheckout
is its post-conflict body. -/
theorem executeBinCheckout_no_conflict (env : Env) (st : LocalState)
    (bn : String) (force : Bool)
    (hnc : force = true ∨ loadFails st.checkoutFile = true) :
    ExecuteBinCheckout env st bn force = binCheckoutBody env st bn := by
  unfold ExecuteBinCheckout
  rcases hnc with hf | hl
  · subst hf
    simp
  · obtain ⟨e, he⟩ := loadFails_error _ hl
    by_cases hf : force = false
    · simp [if_pos hf, he]
    · simp [if_neg hf]

/-- The empty string never scans as an integer. -/
theorem sscanfInt_empty : sscanfInt "" = none := rfl

/-- C6 (amended): On the bin-checkout selection prompt, a blank input line
cancels with an error and no state change; a non-numeric or out-of-range
input is rejected with the invalid-selection error and the operation aborts
with no state change — it neither re-issues the prompt nor silently defaults
to any ticket. -/
theorem C6_selection_validation (env : Env) (st : LocalState) (binName : String)
    (force : Bool) (cfg : Config) (user : User) (binID : String)
    (tickets : List Ticket)
    (hnc : force = true ∨ loadFails st.checkoutFile = true)
    (hcfg : LoadConfig env = .ok cfg)
    (hsvc : NewTicketService env = .ok ())
    (husr : GetCurrentUser env = .ok user)
    (hres : ResolveBinFilterResult env binName = .ok binID)
    (htks : GetUserTicketsFiltered env user.id binID = .ok tickets)
    (hlen : tickets.length ≠ 0) :
    (trimStr (readLine env.stdin) = "" →
        ExecuteBinCheckout env st binName force = (.error "cancelled", st)) ∧
    (trimStr (readLine env.stdin) ≠ "" →
      (sscanfInt (trimStr (readLine env.stdin)) = none →
          ExecuteBinCheckout env st binName force = (.error "invalid selection", st)) ∧
      (∀ sel, sscanfInt (trimStr (readLine env.stdin)) = some sel →
          (sel < 1 ∨ sel > (tickets.length : Int)) →
          ExecuteBinCheckout env st binName force = (.error "invalid selection", st))) := by
  rw [executeBinCheckout_no_conflict env st binName force hnc]
  unfold binCheckoutBody
  simp only [hcfg, hsvc, husr, hres, htks, if_neg hlen]
  constructor
  · intro hblank
    simp [hblank]
  · intro hnb
    constructor
    · intro hnone
      simp [if_neg hnb, hnone]
    · intro sel hsel hrange
      simp [if_neg hnb, hsel, if_pos hrange]

/-- Witness for C6 (amended): a non-numeric first input line makes the bin
checkout abort with the invalid-selection error, leaving the empty state. -/
theorem C6_selection_validation_witness :
    ExecuteBinCheckout wEnvBadInput wEmptyState "In Progress" false =
      (.error "invalid selection", wEmptyState) :=
  ((C6_selection_validation wEnvBadInput wEmptyState "In Progress" false
      ⟨"key", "org", "me@example.com"⟩ ⟨"u1", "me@example.com", "Me"⟩ "id2" [wTicket]
      (Or.inr rfl) rfl rfl rfl rfl rfl (by decide)).2 (by decide)).1 rfl

/-- Counterexample for C6 as stated: the prompt is not re-issued after a
rejected input.  With stdin holding a non-numeric (or out-of-range) first
line followed by the valid selection 1, the command returns the
invalid-selection error without consuming the second line — while the same
environment whose stdin starts at that second line (wEnv) checks the ticket
out successfully, showing a re-issued prompt would have succeeded. -/
theorem C6_counterexample_no_reprompt :
    ExecuteBinCheckout wEnvBadInput wEmptyState "In Progress" false =
      (.error "invalid selection", wEmptyState) ∧
    ExecuteBinCheckout wEnvRangeInput wEmptyState "In Progress" false =
      (.error "invalid selection", wEmptyState) ∧
    ExecuteBinCheckout wEnv wEmptyState "In Progress" false =
      (.ok (), ⟨.valid ⟨"T1", "Ticket One", "id2", "In Progress", "2026-01-01T00:00:00Z"⟩,
        some ⟨"id2", "In Progress"⟩⟩) :=
  ⟨rfl, rfl, rfl⟩

/-- C8: Every forced bin checkout that succeeds while a CheckoutState record
exists replaces the record entirely with fields taken from the newly selected
ticket and the invocation clock — no field of the old record cs appears in
the result — and persists the BinContext for the resolved bin. -/
theorem C8_force_overwrite (env : Env) (st : LocalState) (binName : String)
    (cs : CheckoutState) (cfg : Config) (user : User) (binID : String)
    (tickets : List Ticket) (sel : Int) (t : Ticket)
    (hold : st.checkoutFile = .valid cs)
    (hcfg : LoadConfig env = .ok cfg)
    (hsvc : NewTicketService env = .ok ())
    (husr : GetCurrentUser env = .ok user)
    (hres : ResolveBinFilterResult env binName = .ok binID)
    (htks : GetUserTicketsFiltered env user.id binID = .ok tickets)
    (hsel : sscanfInt (trimStr (readLine env.stdin)) = some sel)
    (h1 : 1 ≤ sel) (h2 : sel ≤ (tickets.length : Int))
    (ht : tickets.getD (sel.toNat - 1) default = t) :
    ExecuteBinCheckout env st binName true =
      (.ok (), ⟨.valid ⟨t.id, t.name, t.binID, t.binName, env.now⟩,
        some ⟨binID, binName⟩⟩) := by
  have hne : tickets.length ≠ 0 := by omega
  have hblank : trimStr (readLine env.stdin) ≠ "" := by
    intro hb
    rw [hb, sscanfInt_empty] at hsel
    cases hsel
  have hrange : ¬(sel < 1 ∨ sel > (tickets.length : Int)) := by
    simp only [not_or, not_lt]
    exact ⟨h1, h2⟩
  rw [executeBinCheckout_no_conflict env st binName true (Or.inl rfl)]
  unfold binCheckoutBody
  simp only [hcfg, hsvc, husr, hres, htks, if_neg hne, if_neg hblank, hsel,
    if_neg hrange]
  simp only [List.getD, List.get?_eq_getElem?] at ht
  simp [ht, SaveCheckout, SaveBinContext]

/-- Witness for C8: forcing a bin checkout over the held old record installs
exactly the selected ticket's fields and the new bin context. -/
theorem C8_force_overwrite_witness :
    ExecuteBinCheckout wEnv wHeldState "In Progress" true =
      (.ok (), ⟨.valid ⟨"T1", "Ticket One", "id2", "In Progress", "2026-01-01T00:00:00Z"⟩,
        some ⟨"id2", "In Progress"⟩⟩) :=
  C8_force_overwrite wEnv wHeldState "In Progress" wOldCheckout
    ⟨"key", "org", "me@example.com"⟩ ⟨"u1", "me@example.com", "Me"⟩ "id2"
    [wTicket] 1 wTicket rfl rfl rfl rfl rfl rfl rfl (by decide) (by decide) rfl

/-- find? returns the first element satisfying the predicate: anything before
it fails the predicate. -/
theorem find?_first_match {α : Type} (p : α → Bool) (pre : List α) (b : α)
    (post : List α) (hpre : ∀ x ∈ pre, p x = false) (hb : p b = true) :
    (pre ++ b :: post).find? p = some b := by
  induction pre with
  | nil =>
    simpa using List.find?_cons_of_pos post hb
  | cons a rest ih =>
    have ha : p a = false := hpre a (List.mem_cons_self a rest)
    rw [List.cons_append, List.find?_cons_of_neg _ (by simp [ha])]
    exact ih (fun x hx => hpre x (List.mem_cons_of_mem a hx))

/-- C5: For every non-empty candidate, ResolveBinFilter returns the candidate
unchanged with zero HTTP requests when every character is a letter or digit;
otherwise it fetches the full bin collection and returns the ID of the first
bin in fetch order whose display name matches case-insensitively, or an
error naming the candidate when no bin name matches — in either of those two
cases every request made is the fetch's own. -/
theorem C5_name_resolution (script : List (Except String (RespBody Bin)))
    (cand : String) (hne : cand ≠ "") :
    (cand.toList.all (fun c => c.isAlpha || c.isDigit) = true →
        ResolveBinFilter script cand = (.ok cand, 0)) ∧
    (cand.toList.all (fun c => c.isAlpha || c.isDigit) = false →
      ∀ bins n, GetBins script = (.ok bins, n) →
        ((∀ pre b post, bins = pre ++ b :: post →
            (∀ x ∈ pre, (toLowerStr x.name == toLowerStr cand) = false) →
            (toLowerStr b.name == toLowerStr cand) = true →
            ResolveBinFilter script cand = (.ok b.id, n)) ∧
         ((∀ x ∈ bins, (toLowerStr x.name == toLowerStr cand) = false) →
            ResolveBinFilter script cand =
              (.error ("failed to find bin \x27" ++ cand ++ "\x27: " ++
                ("bin not found: " ++ cand)), n)))) := by
  constructor
  · intro hall
    have hid : IsBinID cand = true := by
      unfold IsBinID
      rw [if_neg hne]
      exact hall
    simp [ResolveBinFilter, hid]
  · intro hall bins n hGB
    have hid : IsBinID cand = false := by
      unfold IsBinID
      rw [if_neg hne]
      exact hall
    constructor
    · intro pre b post hsplit hpre hb
      have hfind : bins.find? (fun x => toLowerStr x.name == toLowerStr cand) = some b := by
        rw [hsplit]
        exact find?_first_match _ pre b post hpre hb
      simp [ResolveBinFilter, hid, LookupBinIDByName, hGB, hfind]
    · intro hnone
      have hfind : bins.find? (fun x => toLowerStr x.name == toLowerStr cand) = none := by
        refine List.find?_eq_none.mpr ?_
        intro x hx
        simp [hnone x hx]
      simp [ResolveBinFilter, hid, LookupBinIDByName, hGB, hfind]

/-- Witness for C5: against bins named To Do / In Progress / Done fetched in
one page, the candidate IN PROGRESS resolves case-insensitively to id2 with
the single request of the fetch. -/
theorem C5_name_resolution_witness :
    ResolveBinFilter [.ok (.obj (some [wBin1, wBin2, wBin3]) "")] "IN PROGRESS" =
      (.ok "id2", 1) :=
  ((C5_name_resolution [.ok (.obj (some [wBin1, wBin2, wBin3]) "")] "IN PROGRESS"
      (by decide)).2 (by decide) [wBin1, wBin2, wBin3] 1 rfl).1
    [wBin1] wBin2 [wBin3] rfl (by decide) (by decide)
